import Mathlib

/-!
Verification development for the e-commerce return-prediction pipeline.

The Python source (order_processing.py, feature_engineering.py,
model_inference.py, api/prediction.py) is shallowly embedded here:

* a single-row pandas DataFrame is modelled as an association list of
  column name / rational value pairs (`Row`); column assignment
  (`setCol`) replaces the value of an existing column in place and
  appends a new column at the end, exactly as pandas does;
* Python floats are modelled as rationals (the arithmetic in the
  pipeline is plain +, *, /, min, max and comparisons on decimal
  constants, which the rationals reproduce exactly);
* raised exceptions are modelled with `Except String`;
* `datetime.now()` is modelled by an explicit `Clock` argument.
-/

namespace ReturnPrediction

/-- A single dataframe row: ordered columns with rational values. -/
abbrev Row : Type := List (String × ℚ)

/-- Read a column (first occurrence), `none` when the column is absent. -/
def getCol : Row → String → Option ℚ
  | [], _ => none
  | (k, v) :: rest, c => if k = c then some v else getCol rest c

/-- Column membership test (`c in df.columns`). -/
def hasCol (r : Row) (c : String) : Bool :=
  (getCol r c).isSome

/-- Pandas-style column assignment `df[c] = v`: overwrite in place when the
column exists, append it at the end otherwise. -/
def setCol : Row → String → ℚ → Row
  | [], c, v => [(c, v)]
  | (k, w) :: rest, c, v =>
      if k = c then (c, v) :: rest else (k, w) :: setCol rest c v

/-- Fill loop shared by the pandas-style stages: walk a list of column
names, adding each missing one with a (row-dependent) default. -/
def foldlFill (g : Row → String → ℚ) (cs : List String) (row : Row) : Row :=
  cs.foldl (fun r c => if hasCol r c then r else setCol r c (g r c)) row

/-- `Except.isOk` as a plain Bool. -/
def exceptOk {α β : Type} : Except α β → Bool
  | .ok _ => true
  | .error _ => false

/-! ### Validators (order_processing.py `OrderData`, pydantic field validators) -/

/-- Allowed product categories (OrderData.validate_category). -/
def allowed_categories : List String :=
  ["Electronics", "Clothing", "Books", "Home & Garden",
   "Sports", "Beauty", "Toys", "Automotive", "Health", "Home"]

/-- Allowed genders (OrderData.validate_gender). -/
def allowed_genders : List String := ["Male", "Female", "Other"]

/-- Allowed payment methods (OrderData.validate_payment_method). -/
def allowed_payment_methods : List String :=
  ["Credit Card", "Debit Card", "PayPal",
   "Bank Transfer", "Cash", "Digital Wallet", "Gift Card"]

/-- Allowed shipping methods (OrderData.validate_shipping_method). -/
def allowed_shipping_methods : List String := ["Standard", "Express", "Next-Day"]

/-- `validate_category`: unrecognized values only produce a warning (first
component) and the value is passed through unchanged. -/
def validate_category (v : String) : Bool × String :=
  (decide (v ∉ allowed_categories), v)

/-- `validate_gender`: values outside the allowed set raise a ValueError,
which pydantic surfaces as a validation error. -/
def validate_gender (v : String) : Except String String :=
  if v ∈ allowed_genders then .ok v
  else .error "Gender must be one of: Male, Female, Other"

/-- `validate_payment_method`: unrecognized values only produce a warning
and the value is passed through unchanged. -/
def validate_payment_method (v : String) : Bool × String :=
  (decide (v ∉ allowed_payment_methods), v)

/-- `validate_shipping_method`: unrecognized values are replaced by
"Standard" (with a warning), recognized ones are passed through. -/
def validate_shipping_method (v : String) : Bool × String :=
  if v ∈ allowed_shipping_methods then (false, v) else (true, "Standard")

/-! ### Raw orders and OrderData validation -/

/-- An order date field: absent, present but unparseable as YYYY-MM-DD, or
parsed into (year, month, weekday). -/
inductive DateField
  | missing
  | invalid
  | valid (year month weekday : ℤ)
deriving DecidableEq

/-- The values `datetime.now()` supplies to the pipeline. -/
structure Clock where
  year : ℤ
  month : ℤ
  weekday : ℤ
deriving DecidableEq

/-- A raw order as submitted to the service (the fields of the pydantic
`OrderData` model before validation). -/
structure RawOrder where
  price : ℚ
  quantity : ℤ
  product_category : String
  gender : String
  payment_method : String
  age : ℤ
  location : String
  discount_applied : ℚ
  shipping_method : String
  order_date : DateField
deriving DecidableEq

/-- `OrderData(**order_data)`: pydantic field constraints
(price > 0, quantity > 0, 18 ≤ age ≤ 100, 0 ≤ discount ≤ 100) together
with the field validators; on success the shipping method has been
normalized by `validate_shipping_method`. -/
def validateOrder (o : RawOrder) : Except String RawOrder :=
  if ¬ (0 < o.price) then .error "price must be greater than 0"
  else if ¬ (0 < o.quantity) then .error "quantity must be greater than 0"
  else if ¬ (18 ≤ o.age ∧ o.age ≤ 100) then .error "age must be between 18 and 100"
  else if ¬ (0 ≤ o.discount_applied ∧ o.discount_applied ≤ 100) then
    .error "discount_applied must be between 0 and 100"
  else
    match validate_gender o.gender with
    | .error e => .error e
    | .ok g =>
        .ok { o with gender := g,
                     shipping_method := (validate_shipping_method o.shipping_method).2 }

/-! ### Basic feature extraction (OrderProcessingAgent) -/

/-- `_get_basic_mappings()['category']` with `.get(v, 1)`. -/
def categoryCode (v : String) : ℚ :=
  if v = "Electronics" then 1 else if v = "Clothing" then 2
  else if v = "Books" then 3 else if v = "Home" then 4
  else if v = "Toys" then 5 else if v = "Sports" then 6
  else if v = "Beauty" then 7 else if v = "Automotive" then 8
  else if v = "Health" then 9 else if v = "Home & Garden" then 4
  else 1

/-- `_get_basic_mappings()['gender']` with `.get(v, 0)`. -/
def genderCode (v : String) : ℚ :=
  if v = "Male" then 1 else if v = "Female" then 2
  else if v = "Other" then 0 else 0

/-- `_get_basic_mappings()['payment']` with `.get(v, 1)`. -/
def paymentCode (v : String) : ℚ :=
  if v = "Credit Card" then 1 else if v = "Debit Card" then 2
  else if v = "PayPal" then 3 else if v = "Bank Transfer" then 4
  else if v = "Cash" then 5 else if v = "Digital Wallet" then 6
  else if v = "Gift Card" then 7
  else 1

/-- `_get_basic_mappings()['shipping']` with `.get(v, 1)`. -/
def shippingCode (v : String) : ℚ :=
  if v = "Standard" then 1 else if v = "Express" then 2
  else if v = "Next-Day" then 3 else 1

/-- Temporal features of `extract_basic_features`: parsed from the order
date when present and well-formed, otherwise taken from the clock. -/
def temporalFeatures (d : DateField) (clock : Clock) : Row :=
  match d with
  | .valid y m w =>
      [("Order_Year", (y : ℚ)), ("Order_Month", (m : ℚ)), ("Order_Weekday", (w : ℚ))]
  | _ =>
      [("Order_Year", (clock.year : ℚ)), ("Order_Month", (clock.month : ℚ)),
       ("Order_Weekday", (clock.weekday : ℚ))]

/-- `OrderProcessingAgent.extract_basic_features`: the basic feature
dictionary built from a validated order.  `Total_Order_Value` is always
recomputed as price * quantity (the input has no such field to trust). -/
def extract_basic_features (o : RawOrder) (clock : Clock) : Row :=
  [("Product_Category", categoryCode o.product_category),
   ("Product_Price", o.price),
   ("Order_Quantity", (o.quantity : ℚ)),
   ("User_Age", (o.age : ℚ)),
   ("User_Gender", genderCode o.gender),
   ("Payment_Method", paymentCode o.payment_method),
   ("Shipping_Method", shippingCode o.shipping_method),
   ("Discount_Applied", o.discount_applied),
   ("User_Location_Num", 1),
   ("Total_Order_Value", o.price * (o.quantity : ℚ))]
  ++ temporalFeatures o.order_date clock

/-- `OrderProcessingAgent.process_single_order`, reduced to its data path:
validate, then extract basic features (order-id bookkeeping omitted). -/
def process_single_order (o : RawOrder) (clock : Clock) : Except String Row :=
  match validateOrder o with
  | .error e => .error e
  | .ok od => .ok (extract_basic_features od clock)

/-! ### Feature engineering (FeatureEngineeringAgent) -/

/-- `np.select(conditions, choices, default)`: the first true condition
selects its choice, otherwise the default. -/
def npSelect : List (Bool × ℚ) → ℚ → ℚ
  | [], d => d
  | (c, v) :: rest, d => if c then v else npSelect rest d

/-- Default used by the required-column loop of
`create_advanced_features`: `Total_Order_Value` defaults to
`df.get("Product_Price", 0) * df.get("Order_Quantity", 1)`, the other
required numeric columns to 0. -/
def ensureDefault (r : Row) (c : String) : ℚ :=
  if c = "Total_Order_Value" then
    ((getCol r "Product_Price").getD 0) * ((getCol r "Order_Quantity").getD 1)
  else 0

/-- The required-column loop at the top of `create_advanced_features`
(`pd.to_numeric` on already-numeric columns is the identity). -/
def ensureRequired (row : Row) : Row :=
  foldlFill ensureDefault
    ["Product_Price", "Order_Quantity", "User_Age", "Discount_Applied",
     "Total_Order_Value"] row

/-- `pd.cut(d, bins=[0,5,15,30,100], labels=[0,1,2,3], include_lowest=True)`
followed by `.astype(int)`: a discount outside [0, 100] falls in no bin,
giving NaN, and the integer cast then raises. -/
def discountTier (d : ℚ) : Except String ℚ :=
  if d < 0 ∨ 100 < d then
    .error "Cannot convert non-finite values (NA or inf) to integer"
  else if d ≤ 5 then .ok 0
  else if d ≤ 15 then .ok 1
  else if d ≤ 30 then .ok 2
  else .ok 3

/-- `FeatureEngineeringAgent.create_advanced_features`, instantiated to a
one-row frame (so `nunique() > 1` is false and the percentile branches of
`Price_Tier` / `Value_Quartile` are replaced by their single-value
defaults, both 2).  `fillna(0)` on `Discount_Applied` is the identity
here because NaN is not representable in a `Row`. -/
def create_advanced_features (row : Row) : Except String Row :=
  let r := ensureRequired row
  let r :=
    if hasCol r "Product_Price" ∧ hasCol r "Order_Quantity" then
      let price := (getCol r "Product_Price").getD 0
      let qty := (getCol r "Order_Quantity").getD 0
      let r2 := setCol r "Price_Per_Item" (price / (qty + 0.01))
      setCol r2 "Price_Tier" 2
    else r
  let step :=
    if hasCol r "Discount_Applied" then
      let d := (getCol r "Discount_Applied").getD 0
      let r2 := setCol r "High_Discount" (if 20 < d then 1 else 0)
      match discountTier d with
      | .error e => Except.error e
      | .ok t => Except.ok (setCol r2 "Discount_Tier" t)
    else Except.ok r
  match step with
  | .error e => .error e
  | .ok r =>
    let r :=
      if hasCol r "User_Age" then
        let a := (getCol r "User_Age").getD 0
        let r2 := setCol r "Young" (if a < 30 then 1 else 0)
        let r3 := setCol r2 "Senior" (if 60 < a then 1 else 0)
        setCol r3 "Generation"
          (npSelect
            [(decide (18 ≤ a ∧ a ≤ 27), 1), (decide (28 ≤ a ∧ a ≤ 43), 2),
             (decide (44 ≤ a ∧ a ≤ 59), 3), (decide (60 ≤ a), 4)] 2)
      else r
    let r :=
      if hasCol r "Total_Order_Value" then
        let tov := (getCol r "Total_Order_Value").getD 0
        let r2 := setCol r "High_Value" (if 150 < tov then 1 else 0)
        setCol r2 "Value_Quartile" 2
      else r
    let r :=
      if hasCol r "Product_Price" ∧ hasCol r "User_Age" then
        let price := (getCol r "Product_Price").getD 0
        let a := (getCol r "User_Age").getD 0
        setCol r "Return_Risk_Score"
          (npSelect
            [(decide (200 < price ∨ a < 25), 2),
             (decide (100 < price ∨ a < 35), 1)] 0)
      else r
    .ok r

/-- `season_mapping` lookup; months outside 1..12 get NaN in the source,
modelled as 0 (no claim depends on that corner). -/
def seasonOf (m : ℚ) : ℚ :=
  if m = 12 ∨ m = 1 ∨ m = 2 then 1
  else if m = 3 ∨ m = 4 ∨ m = 5 then 2
  else if m = 6 ∨ m = 7 ∨ m = 8 then 3
  else if m = 9 ∨ m = 10 ∨ m = 11 then 4
  else 0

/-- `FeatureEngineeringAgent.create_temporal_features` for a one-row
frame; the clock stands for `datetime.now()`. -/
def create_temporal_features (row : Row) (clock : Clock) : Row :=
  let r :=
    if hasCol row "Order_Year" then row
    else
      let r1 := setCol row "Order_Year" (clock.year : ℚ)
      let r2 := setCol r1 "Order_Month" (clock.month : ℚ)
      setCol r2 "Order_Weekday" (clock.weekday : ℚ)
  let r :=
    if hasCol r "Order_Month" then
      let m := (getCol r "Order_Month").getD 0
      let r1 := setCol r "Order_Quarter" (((⌊(m - 1) / 3⌋ : ℤ) : ℚ) + 1)
      let r2 := setCol r1 "Season" (seasonOf m)
      let r3 := setCol r2 "Holiday_Season" (if m = 11 ∨ m = 12 then 1 else 0)
      let r4 := setCol r3 "Back_To_School_Season" (if m = 8 ∨ m = 9 then 1 else 0)
      setCol r4 "Spring_Season" (if m = 3 ∨ m = 4 ∨ m = 5 then 1 else 0)
    else r
  let r :=
    if hasCol r "Order_Weekday" then
      let w := (getCol r "Order_Weekday").getD 0
      let r1 := setCol r "Weekend_Order" (if w = 5 ∨ w = 6 then 1 else 0)
      let r2 := setCol r1 "Monday_Order" (if w = 0 then 1 else 0)
      setCol r2 "Friday_Order" (if w = 4 then 1 else 0)
    else r
  if hasCol r "Order_Year" then
    let y := (getCol r "Order_Year").getD 0
    setCol r "Recent_Year" (if (clock.year : ℚ) - 1 ≤ y then 1 else 0)
  else r

/-- `FeatureEngineeringAgent.create_interaction_features` for a one-row
frame.  `Avg_Price_Per_Item` divides by the raw quantity; quantity 0
would give inf in pandas, and division in ℚ yields 0 there — the
pipeline only ever passes validated quantities ≥ 1. -/
def create_interaction_features (row : Row) : Row :=
  let r := row
  let r :=
    if hasCol r "Product_Price" ∧ hasCol r "User_Age" then
      let price := (getCol r "Product_Price").getD 0
      let a := (getCol r "User_Age").getD 0
      let r1 := setCol r "Young_Expensive_Combo" (if a < 30 ∧ 200 < price then 1 else 0)
      if hasCol r1 "Product_Category" then
        let cat := (getCol r1 "Product_Category").getD 0
        setCol r1 "Senior_Electronics_Combo" (if 60 < a ∧ cat = 1 then 1 else 0)
      else r1
    else r
  let r :=
    if hasCol r "Discount_Applied" ∧ hasCol r "Product_Price" then
      let d := (getCol r "Discount_Applied").getD 0
      let price := (getCol r "Product_Price").getD 0
      let r1 := setCol r "High_Discount_Expensive" (if 25 < d ∧ 150 < price then 1 else 0)
      setCol r1 "Discount_Price_Ratio" (d / (price + 1))
    else r
  let r :=
    if hasCol r "Order_Quantity" ∧ hasCol r "Product_Price" then
      let q := (getCol r "Order_Quantity").getD 0
      let price := (getCol r "Product_Price").getD 0
      let r1 := setCol r "Bulk_Expensive_Combo" (if 2 < q ∧ 100 < price then 1 else 0)
      setCol r1 "Avg_Price_Per_Item" (price / q)
    else r
  let r :=
    if hasCol r "Product_Category" then
      let cat := (getCol r "Product_Category").getD 0
      let r1 :=
        if hasCol r "Product_Price" then
          setCol r "Electronics_High_Price"
            (if cat = 1 ∧ 300 < (getCol r "Product_Price").getD 0 then 1 else 0)
        else r
      setCol r1 "Clothing_Category_Flag" (if cat = 2 then 1 else 0)
    else r
  if hasCol r "Payment_Method" ∧ hasCol r "Product_Price" then
    setCol r "Cash_High_Value"
      (if (getCol r "Payment_Method").getD 0 = 5 ∧ 200 < (getCol r "Product_Price").getD 0
       then 1 else 0)
  else r

/-- The 18 features the trained model requires
(`required_model_features` in `transform`, identical list in
`encode_categorical_features`). -/
def required_model_features : List String :=
  ["Product_Category", "Product_Price", "Order_Quantity", "User_Age", "User_Gender",
   "Payment_Method", "Shipping_Method", "Discount_Applied", "Total_Order_Value",
   "Order_Year", "Order_Month", "Order_Weekday", "User_Location_Num",
   "Return_Risk_Score", "Price_Per_Item", "High_Discount", "Young", "High_Value"]

/-- Default for a missing required feature in
`encode_categorical_features` (the `for feature in required_features`
loop); `Order_Year` / `Order_Month` / `Order_Weekday` come from the
clock (`datetime.now()`). -/
def requiredDefault (clock : Clock) (r : Row) (c : String) : ℚ :=
  if c = "Return_Risk_Score" then 0
  else if c = "Price_Per_Item" then
    ((getCol r "Product_Price").getD 100) / (((getCol r "Order_Quantity").getD 1) + 0.01)
  else if c = "High_Discount" ∨ c = "Young" ∨ c = "High_Value" then 0
  else if c = "Order_Year" then (clock.year : ℚ)
  else if c = "Order_Month" then (clock.month : ℚ)
  else if c = "Order_Weekday" then (clock.weekday : ℚ)
  else 0

/-- The missing-required-feature fill loop of
`encode_categorical_features`. -/
def fillRequired (clock : Clock) (row : Row) : Row :=
  foldlFill (requiredDefault clock) required_model_features row

/-- `FeatureEngineeringAgent.encode_categorical_features` on the numeric
pipeline rows: every categorical column was already integer-encoded by
`extract_basic_features`, so the `dtype == object` re-mapping branches
are identities; a string `User_Location` column cannot occur in a
numeric `Row`, leaving the `User_Location_Num` default branch and the
required-feature fill loop. -/
def encode_categorical_features (row : Row) (clock : Clock) : Row :=
  let r := if hasCol row "User_Location_Num" then row else setCol row "User_Location_Num" 1
  fillRequired clock r

/-- `df = df[cols]`: select the given columns in the given order,
dropping everything else (used both by `transform` for the final
18-column selection and by `to_inference` for model alignment). -/
def selectColumns (cs : List String) (row : Row) : Row :=
  cs.map (fun c => (c, (getCol row c).getD 0))

/-- `FeatureEngineeringAgent.transform`: advanced features, temporal
features when `Order_Year` is absent, interaction features, categorical
encoding, then selection of exactly `required_model_features` in their
declared order. -/
def transform (row : Row) (clock : Clock) : Except String Row :=
  if row.isEmpty then .error "Input DataFrame is empty"
  else
    match create_advanced_features row with
    | .error e => .error e
    | .ok r1 =>
        let r2 := if hasCol r1 "Order_Year" then r1 else create_temporal_features r1 clock
        let r3 := create_interaction_features r2
        let r4 := encode_categorical_features r3 clock
        .ok (selectColumns required_model_features r4)

/-! ### Column alignment before inference (`to_inference`) -/

/-- `needle in haystack` on char lists (Python substring test). -/
def hasInfixChars (needle : List Char) : List Char → Bool
  | [] => needle.isEmpty
  | c :: rest => needle.isPrefixOf (c :: rest) || hasInfixChars needle rest

/-- Python's `needle in hay` for strings. -/
def strHasSub (hay needle : String) : Bool :=
  hasInfixChars needle.data hay.data

/-- The default used by `to_inference` for a column the model expects but
the engineered set lacks: 0 for binary/seasonal flags, 1.0 for
ratio/average columns, 0 otherwise. -/
def alignDefault (c : String) : ℚ :=
  if strHasSub c "Flag" || strHasSub c "Season" then 0
  else if strHasSub c "Ratio" || strHasSub c "Avg" then 1
  else 0

/-- The missing-column loop of `to_inference`: `df[col] = default` for
every expected column not present. -/
def addMissing (expected : List String) (row : Row) : Row :=
  foldlFill (fun _ c => alignDefault c) expected row

/-- `FeatureEngineeringAgent.to_inference`, alignment part: when the
active model declares `feature_names_in_`, add missing expected columns
with their defaults and reorder to exactly the expected list; otherwise
pass the frame through unchanged. -/
def to_inference_align (modelFeatures : Option (List String)) (row : Row) : Row :=
  match modelFeatures with
  | none => row
  | some expected => selectColumns expected (addMissing expected row)

/-! ### Model inference (ModelInferenceAgent) -/

/-- An opaque classifier artifact: `proba` is `predict_proba` (row 0 of
its output) when the object has that attribute, `label` is
`predict(...)[0]`; either may raise, modelled with `Except`. -/
structure Model where
  proba : Option (Row → Except String (List ℚ))
  label : Row → Except String ℚ

/-- The risk-tier bucketing inside `predict_single`. -/
def riskLevelOf (p : ℚ) : String :=
  if p ≤ 0.3 then "LOW" else if p ≤ 0.6 then "MEDIUM" else "HIGH"

/-- The `prediction` dictionary of a result. -/
structure Prediction where
  will_return : Bool
  return_probability : ℚ
  risk_level : String
  confidence_score : ℚ
deriving DecidableEq

/-- A `predict_single` result envelope. -/
structure PredResult where
  success : Bool
  pred : Prediction
  model_used : Option String
  err : Option String
deriving DecidableEq

/-- The successful result built inside `predict_single`: binary decision
at 0.5, risk tier at 0.3/0.6, the given confidence score. -/
def successResult (p conf : ℚ) (name : String) : PredResult :=
  { success := true
    pred := { will_return := decide ((0.5 : ℚ) < p)
              return_probability := p
              risk_level := riskLevelOf p
              confidence_score := conf }
    model_used := some name
    err := none }

/-- The catch-all failure result of `predict_single`: `success=False`,
neutral prediction with `risk_level='UNKNOWN'`. -/
def failureResult (e : String) : PredResult :=
  { success := false
    pred := { will_return := false
              return_probability := 0
              risk_level := "UNKNOWN"
              confidence_score := 0 }
    model_used := none
    err := some e }

/-- One model invocation inside `predict_single`: with `predict_proba`,
the return probability is entry 1 of the probability row (entry 0 when
it is the only one, an index error when the row is empty) and the
confidence is the row maximum; without it, the raw predicted label is
the probability and the confidence is the fixed 0.8. -/
def runModel (m : Model) (row : Row) : Except String (ℚ × ℚ) :=
  match m.proba with
  | some f =>
      match f row with
      | .error e => .error e
      | .ok probs =>
          match probs with
          | [] => .error "index 0 is out of bounds"
          | p0 :: rest =>
              let raw := match rest with
                         | [] => p0
                         | p1 :: _ => p1
              .ok (raw, rest.foldl max p0)
  | none =>
      match m.label row with
      | .error e => .error e
      | .ok x => .ok (x, 0.8)

/-- The two model slots of a `ModelInferenceAgent`. -/
structure AgentState where
  primary_model : Option Model
  fallback_model : Option Model

/-- `predict_single(..., use_fallback=True)`: no recursion remains — a
missing fallback or a fallback error propagates as an exception. -/
def attemptFallback (st : AgentState) (row : Row) : Except String PredResult :=
  match st.fallback_model with
  | none => .error "No models available for prediction"
  | some m =>
      match runModel m row with
      | .ok pc => .ok (successResult pc.1 pc.2 "fallback")
      | .error e => .error e

/-- `predict_single(..., use_fallback=False)` body: try the primary slot,
rerouting to the fallback when the primary is absent or raises. -/
def attemptPrimary (st : AgentState) (row : Row) : Except String PredResult :=
  match st.primary_model with
  | none =>
      if st.fallback_model.isSome then attemptFallback st row
      else .error "No models available for prediction"
  | some m =>
      match runModel m row with
      | .ok pc => .ok (successResult pc.1 pc.2 "primary")
      | .error e =>
          if st.fallback_model.isSome then attemptFallback st row else .error e

/-- `ModelInferenceAgent.predict_single`: the outer `try/except` turns
any propagated exception into the catch-all failure result, so the
caller always receives a `PredResult`.  (`_validate_input_data` only
logs; it never changes the result.) -/
def predict_single (st : AgentState) (row : Row) : PredResult :=
  match attemptPrimary st row with
  | .ok r => r
  | .error e => failureResult e

/-! ### The dummy model and model loading -/

/-- `row.get('Product_Price', row.get('price', 100))`. -/
def dummyPrice (row : Row) : ℚ :=
  match getCol row "Product_Price" with
  | some v => v
  | none => (getCol row "price").getD 100

/-- `row.get('User_Age', row.get('age', 30))`. -/
def dummyAge (row : Row) : ℚ :=
  match getCol row "User_Age" with
  | some v => v
  | none => (getCol row "age").getD 30

/-- `row.get('Product_Category', 1)`. -/
def dummyCategory (row : Row) : ℚ :=
  (getCol row "Product_Category").getD 1

/-- `row.get('Order_Quantity', row.get('quantity', 1))`. -/
def dummyQuantity (row : Row) : ℚ :=
  match getCol row "Order_Quantity" with
  | some v => v
  | none => (getCol row "quantity").getD 1

/-- The return probability computed by `DummyModel.predict_proba`. -/
def dummyProbability (row : Row) : ℚ :=
  let price := dummyPrice row
  let age := dummyAge row
  let category := dummyCategory row
  let quantity := dummyQuantity row
  let base_prob : ℚ := 0.65
  let price_factor := min 0.08 (price / 2500)
  let age_factor := max 0 ((40 - age) / 500)
  let category_factor : ℚ := if category = 1 then 0.02 else 0.01
  let quantity_factor := min 0.02 ((quantity - 1) * 0.01)
  min 0.75 (base_prob + price_factor + age_factor + category_factor + quantity_factor)

/-- The deterministic rule-based `DummyModel` synthesized by
`_create_dummy_model`; `predict_proba` returns
`[1 - prob_return, prob_return]`, `predict` uses the simple
price/age rule on the raw `price`/`age` keys. -/
def dummyModel : Model :=
  { proba := some (fun row => .ok [1 - dummyProbability row, dummyProbability row])
    label := fun row =>
      .ok (if 150 < (getCol row "price").getD 0 ∨ (getCol row "age").getD 30 < 25
           then 1 else 0) }

/-- What is on disk for one model slot: missing/zero-length file, a file
`pickle.load` rejects, or a loadable model. -/
inductive Artifact
  | absent
  | corrupt
  | good (m : Model)

/-- One slot of `_load_models`: only a loadable artifact yields a model;
a missing, empty or corrupt file leaves the slot `None` (logged, never
raised). -/
def loadSlot : Artifact → Option Model
  | .good m => some m
  | _ => none

/-- `ModelInferenceAgent._load_models`: load both slots; when neither
loads, `_create_dummy_model` installs the dummy model as the primary. -/
def loadModels (primary fallback : Artifact) : AgentState :=
  let p := loadSlot primary
  let f := loadSlot fallback
  if p.isNone ∧ f.isNone then
    { primary_model := some dummyModel, fallback_model := none }
  else
    { primary_model := p, fallback_model := f }

/-- A model whose prediction methods always raise, for exercising the
failure path. -/
def errModel (e : String) : Model :=
  { proba := some (fun _ => .error e), label := fun _ => .error e }

/-! ### The batch pipeline row (api/prediction.py) -/

/-- The pydantic `PredictionRequest` of the HTTP/batch layer: the same
field checks as `OrderData` except the age policy is 0..120 and there is
no discount/shipping field. -/
def validatePredictionRequest (o : RawOrder) : Except String RawOrder :=
  if ¬ (0 < o.price) then .error "price must be greater than 0"
  else if ¬ (0 < o.quantity) then .error "quantity must be greater than 0"
  else if ¬ (0 ≤ o.age ∧ o.age ≤ 120) then .error "age must be between 0 and 120"
  else
    match validate_gender o.gender with
    | .error e => .error e
    | .ok _ => .ok o

/-- The age bound `validate_csv_data` imposes on uploaded batch rows. -/
def csvAgeOk (age : ℤ) : Bool :=
  decide (0 ≤ age ∧ age ≤ 120)

/-- One row of `process_batch_predictions`: order processing (OrderData
validation plus basic features), feature engineering, then
`predict_single`; any failure marks the row failed and the batch
continues.  Returns (row succeeded, prediction if any). -/
def processBatchRow (st : AgentState) (clock : Clock) (o : RawOrder) :
    Bool × Option PredResult :=
  match process_single_order o clock with
  | .error _ => (false, none)
  | .ok basic =>
      match transform basic clock with
      | .error _ => (false, none)
      | .ok final =>
          let res := predict_single st final
          (res.success, some res)

/-! ### Concrete sample inputs (used to instantiate the theorems) -/

/-- A plain order with a 17-year-old customer. -/
def order17 : RawOrder :=
  { price := 50, quantity := 1, product_category := "Books",
    gender := "Male", payment_method := "PayPal", age := 17,
    location := "Urban", discount_applied := 0, shipping_method := "Standard",
    order_date := .missing }

/-- A fixed clock standing for one particular `datetime.now()`. -/
def witnessClock : Clock :=
  { year := 2025, month := 10, weekday := 3 }

/-- A second, different clock. -/
def witnessClock2 : Clock :=
  { year := 1999, month := 12, weekday := 0 }

/-- A row carrying just a price and an age. -/
def priceAgeRow : Row :=
  [("Product_Price", 199.99), ("User_Age", 28)]

/-- The advanced-feature output on `priceAgeRow`. -/
def priceAgeOut : Row :=
  (create_advanced_features priceAgeRow).toOption.getD []

/-- A full basic-feature row with the temporal fields present. -/
def basicRow : Row :=
  [("Product_Category", 1), ("Product_Price", 199.99), ("Order_Quantity", 1),
   ("User_Age", 28), ("User_Gender", 2), ("Payment_Method", 1),
   ("Shipping_Method", 1), ("Discount_Applied", 0), ("User_Location_Num", 1),
   ("Total_Order_Value", 199.99), ("Order_Year", 2024), ("Order_Month", 6),
   ("Order_Weekday", 2)]

/-! ### Helper lemmas about rows and the fill loops -/

theorem getCol_setCol (r : Row) (c : String) (v : ℚ) (x : String) :
    getCol (setCol r c v) x = if x = c then some v else getCol r x := by
  induction r with
  | nil =>
      by_cases h : c = x
      · subst h; simp [setCol, getCol]
      · simp [setCol, getCol, h, Ne.symm h]
  | cons p rest ih =>
      obtain ⟨k, w⟩ := p
      by_cases hk : k = c
      · subst hk
        by_cases hx : k = x
        · subst hx; simp [setCol, getCol]
        · simp [setCol, getCol, hx, Ne.symm hx]
      · by_cases hkx : k = x
        · subst hkx
          simp [setCol, getCol, hk, Ne.symm hk, ih]
        · simp [setCol, getCol, hk, hkx, ih]

theorem hasCol_setCol (r : Row) (c : String) (v : ℚ) (x : String) :
    hasCol (setCol r c v) x = (decide (x = c) || hasCol r x) := by
  by_cases h : x = c <;> simp [hasCol, getCol_setCol, h]

theorem getCol_append_left {r1 : Row} {c : String} {v : ℚ} (r2 : Row)
    (h : getCol r1 c = some v) : getCol (r1 ++ r2) c = some v := by
  induction r1 with
  | nil => simp [getCol] at h
  | cons p rest ih =>
      obtain ⟨k, w⟩ := p
      by_cases hk : k = c
      · subst hk
        simp [getCol] at h ⊢
        exact h
      · simp only [getCol, if_neg hk, List.cons_append] at h ⊢
        exact ih h

theorem foldlFill_getCol_not_mem (g : Row → String → ℚ) (cs : List String)
    (x : String) (hx : x ∉ cs) :
    ∀ r : Row, getCol (foldlFill g cs r) x = getCol r x := by
  induction cs with
  | nil => intro r; rfl
  | cons c rest ih =>
      intro r
      have hxc : x ≠ c := fun h => hx (h ▸ List.mem_cons_self c rest)
      have hxr : x ∉ rest := fun h => hx (List.mem_cons_of_mem c h)
      show getCol (foldlFill g rest _) x = getCol r x
      rw [ih hxr]
      by_cases hc : hasCol r c
      · simp [hc]
      · simp [hc, getCol_setCol, hxc]

theorem foldlFill_getCol_const (g : String → ℚ) (cs : List String) (x : String) :
    ∀ r : Row, getCol (foldlFill (fun _ c => g c) cs r) x =
      if x ∈ cs then some ((getCol r x).getD (g x)) else getCol r x := by
  induction cs with
  | nil => intro r; simp [foldlFill]
  | cons c rest ih =>
      intro r
      show getCol (foldlFill _ rest _) x = _
      rw [ih]
      by_cases hxc : x = c
      · subst hxc
        by_cases hc : hasCol r x
        · obtain ⟨v, hv⟩ := Option.isSome_iff_exists.mp hc
          by_cases hxr : x ∈ rest <;> simp [hc, hxr, hv]
        · have hnone : getCol r x = none := Option.not_isSome_iff_eq_none.mp hc
          by_cases hxr : x ∈ rest <;>
            simp [hc, hxr, hnone, getCol_setCol]
      · by_cases hc : hasCol r c <;>
          by_cases hxr : x ∈ rest <;>
            simp [hc, hxr, hxc, getCol_setCol]

theorem getCol_selectColumns (cs : List String) (r : Row) (x : String) :
    getCol (selectColumns cs r) x =
      if x ∈ cs then some ((getCol r x).getD 0) else none := by
  induction cs with
  | nil => simp [selectColumns, getCol]
  | cons c rest ih =>
      by_cases hxc : x = c
      · subst hxc
        simp [selectColumns, getCol, ih]
      · simp only [selectColumns, List.map_cons, getCol, List.mem_cons]
        rw [if_neg (fun h => hxc h.symm)]
        simpa [hxc] using ih

theorem selectColumns_fst (cs : List String) (r : Row) :
    (selectColumns cs r).map Prod.fst = cs := by
  induction cs with
  | nil => rfl
  | cons c rest ih => simp [selectColumns] at ih ⊢; exact ih

theorem ensureRequired_getCol_basic (row : Row) (x : String)
    (hx : x ∈ (["Product_Price", "Order_Quantity", "User_Age",
                "Discount_Applied"] : List String)) :
    getCol (ensureRequired row) x = some ((getCol row x).getD 0) := by
  fin_cases hx <;>
  · unfold ensureRequired foldlFill
    simp only [List.foldl]
    cases hPP : getCol row "Product_Price" <;>
    cases hOQ : getCol row "Order_Quantity" <;>
    cases hUA : getCol row "User_Age" <;>
    cases hDA : getCol row "Discount_Applied" <;>
    cases hTOV : getCol row "Total_Order_Value" <;>
      simp_all [hasCol, getCol_setCol, ensureDefault]

theorem ensureRequired_hasCol (row : Row) (x : String)
    (hx : x ∈ (["Product_Price", "Order_Quantity", "User_Age",
                "Discount_Applied", "Total_Order_Value"] : List String)) :
    hasCol (ensureRequired row) x = true := by
  fin_cases hx <;>
  · unfold ensureRequired foldlFill
    simp only [List.foldl]
    cases hPP : getCol row "Product_Price" <;>
    cases hOQ : getCol row "Order_Quantity" <;>
    cases hUA : getCol row "User_Age" <;>
    cases hDA : getCol row "Discount_Applied" <;>
    cases hTOV : getCol row "Total_Order_Value" <;>
      simp_all [hasCol, getCol_setCol, ensureDefault]

theorem ensureRequired_getCol_TOV (row : Row) :
    getCol (ensureRequired row) "Total_Order_Value" =
      some ((getCol row "Total_Order_Value").getD
        (((getCol row "Product_Price").getD 0) * ((getCol row "Order_Quantity").getD 0))) := by
  unfold ensureRequired foldlFill
  simp only [List.foldl]
  cases hPP : getCol row "Product_Price" <;>
  cases hOQ : getCol row "Order_Quantity" <;>
  cases hUA : getCol row "User_Age" <;>
  cases hDA : getCol row "Discount_Applied" <;>
  cases hTOV : getCol row "Total_Order_Value" <;>
    simp_all [hasCol, getCol_setCol, ensureDefault]

theorem create_advanced_features_eq (row : Row) :
    create_advanced_features row =
      (let r0 := ensureRequired row
       let price := (getCol row "Product_Price").getD 0
       let qty := (getCol row "Order_Quantity").getD 0
       let age := (getCol row "User_Age").getD 0
       let d := (getCol row "Discount_Applied").getD 0
       let tov := (getCol row "Total_Order_Value").getD
         (((getCol row "Product_Price").getD 0) * ((getCol row "Order_Quantity").getD 0))
       match discountTier d with
       | .error e => .error e
       | .ok t =>
           .ok (setCol (setCol (setCol (setCol (setCol (setCol (setCol (setCol (setCol (setCol
                 r0
                 "Price_Per_Item" (price / (qty + 0.01)))
                 "Price_Tier" 2)
                 "High_Discount" (if 20 < d then 1 else 0))
                 "Discount_Tier" t)
                 "Young" (if age < 30 then 1 else 0))
                 "Senior" (if 60 < age then 1 else 0))
                 "Generation" (npSelect
                   [(decide (18 ≤ age ∧ age ≤ 27), 1), (decide (28 ≤ age ∧ age ≤ 43), 2),
                    (decide (44 ≤ age ∧ age ≤ 59), 3), (decide (60 ≤ age), 4)] 2))
                 "High_Value" (if 150 < tov then 1 else 0))
                 "Value_Quartile" 2)
                 "Return_Risk_Score" (npSelect
                   [(decide (200 < price ∨ age < 25), 2),
                    (decide (100 < price ∨ age < 35), 1)] 0))) := by
  have hPP := ensureRequired_getCol_basic row "Product_Price" (by simp)
  have hOQ := ensureRequired_getCol_basic row "Order_Quantity" (by simp)
  have hUA := ensureRequired_getCol_basic row "User_Age" (by simp)
  have hDA := ensureRequired_getCol_basic row "Discount_Applied" (by simp)
  have hTOV := ensureRequired_getCol_TOV row
  unfold create_advanced_features
  simp only [hasCol, hasCol_setCol, getCol_setCol, hPP, hOQ, hUA, hDA, hTOV,
    Option.isSome_some, Option.getD_some]
  cases htier : discountTier ((getCol row "Discount_Applied").getD 0) <;>
    simp [htier, hasCol, hasCol_setCol, getCol_setCol, hPP, hOQ, hUA, hDA, hTOV]

theorem ensureRequired_getCol_not_mem (row : Row) (x : String)
    (hx : x ∉ (["Product_Price", "Order_Quantity", "User_Age",
                "Discount_Applied", "Total_Order_Value"] : List String)) :
    getCol (ensureRequired row) x = getCol row x :=
  foldlFill_getCol_not_mem ensureDefault _ x hx row

theorem create_advanced_getCol_temporal (row r : Row)
    (h : create_advanced_features row = .ok r) (x : String)
    (hx : x ∈ (["Order_Year", "Order_Month", "Order_Weekday"] : List String)) :
    getCol r x = getCol row x := by
  rw [create_advanced_features_eq] at h
  fin_cases hx <;>
  · revert h
    cases htier : discountTier ((getCol row "Discount_Applied").getD 0) <;> intro h <;>
      simp [htier] at h
    rw [← h]
    simp [getCol_setCol]
    exact ensureRequired_getCol_not_mem row _ (by decide)

theorem foldlFill_cons (g : Row → String → ℚ) (c : String) (cs : List String) (r : Row) :
    foldlFill g (c :: cs) r =
      foldlFill g cs (if hasCol r c then r else setCol r c (g r c)) := rfl

theorem create_interaction_getCol (row : Row) (x : String)
    (h1 : x ≠ "Young_Expensive_Combo") (h2 : x ≠ "Senior_Electronics_Combo")
    (h3 : x ≠ "High_Discount_Expensive") (h4 : x ≠ "Discount_Price_Ratio")
    (h5 : x ≠ "Bulk_Expensive_Combo") (h6 : x ≠ "Avg_Price_Per_Item")
    (h7 : x ≠ "Electronics_High_Price") (h8 : x ≠ "Clothing_Category_Flag")
    (h9 : x ≠ "Cash_High_Value") :
    getCol (create_interaction_features row) x = getCol row x := by
  unfold create_interaction_features
  simp [apply_ite (fun r : Row => getCol r x), getCol_setCol,
    h1, h2, h3, h4, h5, h6, h7, h8, h9]

theorem foldlFill_requiredDefault_clock (cs : List String) (c1 c2 : Clock) :
    ∀ r : Row, hasCol r "Order_Year" = true → hasCol r "Order_Month" = true →
      hasCol r "Order_Weekday" = true →
      foldlFill (requiredDefault c1) cs r = foldlFill (requiredDefault c2) cs r := by
  induction cs with
  | nil => intro r _ _ _; rfl
  | cons c rest ih =>
      intro r h1 h2 h3
      rw [foldlFill_cons, foldlFill_cons]
      by_cases hc : hasCol r c
      · rw [if_pos hc, if_pos hc]; exact ih r h1 h2 h3
      · have e1 : c ≠ "Order_Year" := by rintro rfl; exact hc h1
        have e2 : c ≠ "Order_Month" := by rintro rfl; exact hc h2
        have e3 : c ≠ "Order_Weekday" := by rintro rfl; exact hc h3
        have hd : requiredDefault c1 r c = requiredDefault c2 r c := by
          unfold requiredDefault; simp [e1, e2, e3]
        rw [if_neg hc, if_neg hc, hd]
        apply ih <;> simp [hasCol_setCol, h1, h2, h3]

theorem encode_clock_indep (r : Row) (c1 c2 : Clock)
    (h1 : hasCol r "Order_Year" = true) (h2 : hasCol r "Order_Month" = true)
    (h3 : hasCol r "Order_Weekday" = true) :
    encode_categorical_features r c1 = encode_categorical_features r c2 := by
  unfold encode_categorical_features fillRequired
  by_cases hl : hasCol r "User_Location_Num"
  · simp only [hl, if_true]
    exact foldlFill_requiredDefault_clock _ c1 c2 r h1 h2 h3
  · simp only [hl, Bool.false_eq_true, if_false]
    apply foldlFill_requiredDefault_clock <;> simp [hasCol_setCol, h1, h2, h3]

theorem attemptFallback_ok (st : AgentState) (row : Row) (r : PredResult)
    (h : attemptFallback st row = .ok r) :
    ∃ p c, r = successResult p c "fallback" := by
  unfold attemptFallback at h
  split at h
  · simp at h
  · split at h
    · injection h with h
      exact ⟨_, _, h.symm⟩
    · simp at h

theorem attemptPrimary_ok (st : AgentState) (row : Row) (r : PredResult)
    (h : attemptPrimary st row = .ok r) :
    ∃ p c n, r = successResult p c n := by
  unfold attemptPrimary at h
  split at h
  · split at h
    · obtain ⟨p, c, hr⟩ := attemptFallback_ok st row r h
      exact ⟨p, c, _, hr⟩
    · simp at h
  · split at h
    · injection h with h
      exact ⟨_, _, "primary", h.symm⟩
    · split at h
      · obtain ⟨p, c, hr⟩ := attemptFallback_ok st row r h
        exact ⟨p, c, _, hr⟩
      · simp at h

theorem predict_single_success_shape (st : AgentState) (row : Row)
    (h : (predict_single st row).success = true) :
    ∃ p c n, predict_single st row = successResult p c n := by
  unfold predict_single at h ⊢
  cases hA : attemptPrimary st row with
  | error e => rw [hA] at h; simp [failureResult] at h
  | ok r => exact attemptPrimary_ok st row r hA

/-! ### Claim theorems -/

/-- C2: for every validated order, the extracted basic feature set has
`Total_Order_Value` equal to price × quantity exactly; the value is
recomputed from the price and quantity fields (a raw order carries no
total field that could be trusted instead). -/
theorem total_order_value_recomputed (o : RawOrder) (clock : Clock) :
    getCol (extract_basic_features o clock) "Total_Order_Value" =
      some (o.price * (o.quantity : ℚ)) := by
  unfold extract_basic_features
  apply getCol_append_left
  rfl

/-- C5: for every input row, the advanced-feature stage computes
`Return_Risk_Score` by the fixed two-rule cascade: price > 200 or
age < 25 gives 2, else price > 100 or age < 35 gives 1, else 0. -/
theorem return_risk_score_cascade (row r : Row)
    (h : create_advanced_features row = .ok r) :
    getCol r "Return_Risk_Score" =
      some (if 200 < (getCol row "Product_Price").getD 0
               ∨ (getCol row "User_Age").getD 0 < 25 then 2
            else if 100 < (getCol row "Product_Price").getD 0
               ∨ (getCol row "User_Age").getD 0 < 35 then 1
            else 0) := by
  rw [create_advanced_features_eq] at h
  revert h
  cases htier : discountTier ((getCol row "Discount_Applied").getD 0) <;>
    intro h <;> simp [htier] at h
  rw [← h]
  simp [getCol_setCol, npSelect, decide_eq_true_eq]

/-- Witness for C5: the spec's own test point price = 199.99, age = 28
falls in the middle tier, Return_Risk_Score = 1. -/
theorem return_risk_score_cascade_witness :
    create_advanced_features priceAgeRow = .ok priceAgeOut
    ∧ getCol priceAgeOut "Return_Risk_Score" = some 1 := by
  constructor
  · rfl
  · have h := return_risk_score_cascade priceAgeRow priceAgeOut rfl
    have hne : ("Product_Price" : String) ≠ "User_Age" := by decide
    rw [h]
    norm_num [priceAgeRow, getCol, hne]

/-- C7: validation rejects any order whose gender is outside
{Male, Female, Other} with a hard error, accepts any category or
payment-method value (warning only, value passed through), and replaces
an unrecognized shipping method by "Standard" instead of rejecting. -/
theorem validator_policy (g c p s : String) :
    (g ∉ allowed_genders →
      validate_gender g = .error "Gender must be one of: Male, Female, Other")
    ∧ (validate_category c).2 = c
    ∧ (validate_payment_method p).2 = p
    ∧ (s ∉ allowed_shipping_methods → validate_shipping_method s = (true, "Standard"))
    ∧ (s ∈ allowed_shipping_methods → validate_shipping_method s = (false, s)) := by
  refine ⟨?_, rfl, rfl, ?_, ?_⟩
  · intro h; simp [validate_gender, h]
  · intro h; simp [validate_shipping_method, h]
  · intro h; simp [validate_shipping_method, h]

/-- Witness for C7 at concrete unrecognized and recognized values. -/
theorem validator_policy_witness :
    validate_gender "Unknown" = .error "Gender must be one of: Male, Female, Other"
    ∧ (validate_category "Groceries").2 = "Groceries"
    ∧ (validate_payment_method "Crypto").2 = "Crypto"
    ∧ validate_shipping_method "Drone" = (true, "Standard")
    ∧ validate_shipping_method "Express" = (false, "Express") :=
  ⟨(validator_policy "Unknown" "Groceries" "Crypto" "Drone").1 (by decide),
   (validator_policy "Unknown" "Groceries" "Crypto" "Drone").2.1,
   (validator_policy "Unknown" "Groceries" "Crypto" "Drone").2.2.1,
   (validator_policy "Unknown" "Groceries" "Crypto" "Drone").2.2.2.1 (by decide),
   (validator_policy "Unknown" "Groceries" "Crypto" "Express").2.2.2.2 (by decide)⟩

/-- C1: when the active model declares its expected columns
(`feature_names_in_`), the vector handed to inference has exactly those
columns in that order, expected-but-missing columns are filled with the
documented default (0 for flag/seasonal columns, 1.0 for ratio/average
columns) and present columns keep their values; extra columns are
dropped.  In addition the engineering `transform` itself always emits
exactly the model's 18 required columns in their declared order. -/
theorem to_inference_alignment (expected : List String) (row : Row) :
    ((to_inference_align (some expected) row).map Prod.fst = expected)
    ∧ (∀ c, c ∈ expected →
        getCol (to_inference_align (some expected) row) c =
          some ((getCol row c).getD (alignDefault c)))
    ∧ (∀ c, (strHasSub c "Flag" || strHasSub c "Season") = true → alignDefault c = 0)
    ∧ (∀ c, (strHasSub c "Flag" || strHasSub c "Season") = false →
        (strHasSub c "Ratio" || strHasSub c "Avg") = true → alignDefault c = 1)
    ∧ (∀ clock r4, transform row clock = .ok r4 →
        r4.map Prod.fst = required_model_features) := by
  refine ⟨?_, ?_, ?_, ?_, ?_⟩
  · exact selectColumns_fst _ _
  · intro c hc
    show getCol (selectColumns expected (addMissing expected row)) c = _
    rw [getCol_selectColumns, if_pos hc]
    unfold addMissing
    rw [foldlFill_getCol_const alignDefault expected c row, if_pos hc]
    simp
  · intro c hcond
    unfold alignDefault
    rw [if_pos hcond]
  · intro c h1 h2
    simp [alignDefault, h1, h2]
  · intro clock r4 h
    unfold transform at h
    split at h
    · simp at h
    · split at h
      · simp at h
      · injection h with h
        rw [← h]
        exact selectColumns_fst _ _

/-- Witness for C1: two expected columns against a row having one of
them plus an extra column; `Discount_Price_Ratio` is filled with the
ratio default 1, `Young` keeps its value, `Extra` is dropped. -/
theorem to_inference_alignment_witness :
    (to_inference_align (some ["Young", "Discount_Price_Ratio"])
        [("Extra", 5), ("Young", 1)]).map Prod.fst = ["Young", "Discount_Price_Ratio"]
    ∧ getCol (to_inference_align (some ["Young", "Discount_Price_Ratio"])
        [("Extra", 5), ("Young", 1)]) "Discount_Price_Ratio" = some 1
    ∧ getCol (to_inference_align (some ["Young", "Discount_Price_Ratio"])
        [("Extra", 5), ("Young", 1)]) "Young" = some 1 := by
  have h := to_inference_alignment ["Young", "Discount_Price_Ratio"]
    [("Extra", 5), ("Young", 1)]
  refine ⟨h.1, ?_, ?_⟩
  · rw [h.2.1 "Discount_Price_Ratio" (by decide)]; rfl
  · rw [h.2.1 "Young" (by decide)]; rfl

/-- C3: whenever `predict_single` reports success, the risk level is the
fixed bucketing of its own return probability: ≤ 0.3 LOW, in (0.3, 0.6]
MEDIUM, > 0.6 HIGH (boundaries inclusive on the lower band). -/
theorem risk_level_bucketing (st : AgentState) (row : Row)
    (h : (predict_single st row).success = true) :
    ((predict_single st row).pred.return_probability ≤ 0.3 →
      (predict_single st row).pred.risk_level = "LOW")
    ∧ (0.3 < (predict_single st row).pred.return_probability →
       (predict_single st row).pred.return_probability ≤ 0.6 →
       (predict_single st row).pred.risk_level = "MEDIUM")
    ∧ (0.6 < (predict_single st row).pred.return_probability →
       (predict_single st row).pred.risk_level = "HIGH") := by
  obtain ⟨p, c, n, hr⟩ := predict_single_success_shape st row h
  rw [hr]
  unfold successResult riskLevelOf
  dsimp only
  refine ⟨fun h1 => ?_, fun h1 h2 => ?_, fun h1 => ?_⟩
  · rw [if_pos h1]
  · rw [if_neg (not_le.mpr h1), if_pos h2]
  · rw [if_neg (not_le.mpr (lt_trans (by norm_num) h1)), if_neg (not_le.mpr h1)]

/-- Witness for C3: with no artifacts loaded the dummy model serves an
empty row with probability 0.73 > 0.6, bucketed HIGH. -/
theorem risk_level_bucketing_witness :
    (predict_single (loadModels .absent .absent) []).success = true
    ∧ (0.6 : ℚ) < (predict_single (loadModels .absent .absent) []).pred.return_probability
    ∧ (predict_single (loadModels .absent .absent) []).pred.risk_level = "HIGH" := by
  have hs : (predict_single (loadModels .absent .absent) []).success = true := rfl
  have hp : (predict_single (loadModels .absent .absent) []).pred.return_probability
      = dummyProbability [] := rfl
  have hval : dummyProbability [] = 73/100 := by
    norm_num [dummyProbability, dummyPrice, dummyAge, dummyCategory, dummyQuantity,
      getCol, min_def, max_def]
  refine ⟨hs, ?_, ?_⟩
  · rw [hp, hval]; norm_num
  · exact (risk_level_bucketing _ _ hs).2.2 (by rw [hp, hval]; norm_num)

/-- C4: whenever `predict_single` reports success, `will_return` holds
exactly when the return probability exceeds 0.5. -/
theorem will_return_boundary (st : AgentState) (row : Row)
    (h : (predict_single st row).success = true) :
    ((predict_single st row).pred.will_return = true ↔
      0.5 < (predict_single st row).pred.return_probability) := by
  obtain ⟨p, c, n, hr⟩ := predict_single_success_shape st row h
  rw [hr]
  unfold successResult
  dsimp only
  exact decide_eq_true_iff

/-- Witness for C4: the dummy model's 0.73 probability crosses the 0.5
boundary, so `will_return` is true. -/
theorem will_return_boundary_witness :
    (predict_single (loadModels .absent .absent) []).success = true
    ∧ (predict_single (loadModels .absent .absent) []).pred.will_return = true := by
  have hs : (predict_single (loadModels .absent .absent) []).success = true := rfl
  have hp : (predict_single (loadModels .absent .absent) []).pred.return_probability
      = dummyProbability [] := rfl
  have hval : dummyProbability [] = 73/100 := by
    norm_num [dummyProbability, dummyPrice, dummyAge, dummyCategory, dummyQuantity,
      getCol, min_def, max_def]
  exact ⟨hs, (will_return_boundary _ _ hs).mpr (by rw [hp, hval]; norm_num)⟩

/-- C6: `predict_single` never propagates an exception — with no model in
either slot it returns a result with `success = false` and risk level
UNKNOWN, the same when both slots hold models whose prediction methods
raise; and when both on-disk artifacts are absent at load time the
synthesized dummy model still yields a well-formed successful result. -/
theorem predict_failure_semantics (st : AgentState) (row : Row) (e1 e2 : String)
    (h : st.primary_model = none ∧ st.fallback_model = none) :
    (predict_single st row).success = false
    ∧ (predict_single st row).pred.risk_level = "UNKNOWN"
    ∧ (predict_single { primary_model := some (errModel e1),
                        fallback_model := some (errModel e2) } row).success = false
    ∧ (predict_single { primary_model := some (errModel e1),
                        fallback_model := some (errModel e2) } row).pred.risk_level = "UNKNOWN"
    ∧ (predict_single (loadModels .absent .absent) row).success = true := by
  obtain ⟨h1, h2⟩ := h
  have hfail : predict_single st row =
      failureResult "No models available for prediction" := by
    simp [predict_single, attemptPrimary, h1, h2]
  have herr : predict_single
      { primary_model := some (errModel e1), fallback_model := some (errModel e2) } row
      = failureResult e2 := by
    simp [predict_single, attemptPrimary, attemptFallback, runModel, errModel]
  exact ⟨by rw [hfail]; rfl, by rw [hfail]; rfl,
         by rw [herr]; rfl, by rw [herr]; rfl, rfl⟩

/-- Witness for C6 at the empty agent state, an empty row, and two
always-raising models. -/
theorem predict_failure_semantics_witness :
    (predict_single { primary_model := none, fallback_model := none } []).success = false
    ∧ (predict_single { primary_model := none, fallback_model := none } []).pred.risk_level
        = "UNKNOWN"
    ∧ (predict_single { primary_model := some (errModel "boom1"),
                        fallback_model := some (errModel "boom2") } []).success = false
    ∧ (predict_single { primary_model := some (errModel "boom1"),
                        fallback_model := some (errModel "boom2") } []).pred.risk_level
        = "UNKNOWN"
    ∧ (predict_single (loadModels .absent .absent) []).success = true :=
  predict_failure_semantics { primary_model := none, fallback_model := none } []
    "boom1" "boom2" ⟨rfl, rfl⟩

/-- The dummy model's probability, written without the `let` chain. -/
theorem dummyProbability_bounds (row : Row)
    (hp : 0 ≤ dummyPrice row) (hq : 1 ≤ dummyQuantity row) :
    (0.65 : ℚ) ≤ dummyProbability row ∧ dummyProbability row ≤ 0.75 := by
  have hd : dummyProbability row =
      min 0.75 (0.65 + min 0.08 (dummyPrice row / 2500)
        + max 0 ((40 - dummyAge row) / 500)
        + (if dummyCategory row = 1 then (0.02 : ℚ) else 0.01)
        + min 0.02 ((dummyQuantity row - 1) * 0.01)) := rfl
  rw [hd]
  constructor
  · apply le_min
    · norm_num
    · have hpf : (0 : ℚ) ≤ min 0.08 (dummyPrice row / 2500) :=
        le_min (by norm_num) (div_nonneg hp (by norm_num))
      have haf : (0 : ℚ) ≤ max 0 ((40 - dummyAge row) / 500) := le_max_left _ _
      have hcf : (0.01 : ℚ) ≤ if dummyCategory row = 1 then (0.02 : ℚ) else 0.01 := by
        split <;> norm_num
      have hqf : (0 : ℚ) ≤ min 0.02 ((dummyQuantity row - 1) * 0.01) :=
        le_min (by norm_num) (mul_nonneg (by linarith) (by norm_num))
      linarith
  · exact min_le_left _ _

/-- C10: on any row with nonnegative price and quantity at least 1 (all
pipeline rows), the dummy model's return probability lies in
[0.65, 0.75]; consequently every dummy-served prediction succeeds with
`will_return = true` and risk level HIGH. -/
theorem dummy_model_range (row : Row)
    (hp : 0 ≤ dummyPrice row) (hq : 1 ≤ dummyQuantity row) :
    ((0.65 : ℚ) ≤ dummyProbability row ∧ dummyProbability row ≤ 0.75)
    ∧ (predict_single (loadModels .absent .absent) row).success = true
    ∧ (predict_single (loadModels .absent .absent) row).pred.return_probability
        = dummyProbability row
    ∧ (predict_single (loadModels .absent .absent) row).pred.will_return = true
    ∧ (predict_single (loadModels .absent .absent) row).pred.risk_level = "HIGH" := by
  have hb := dummyProbability_bounds row hp hq
  have heq : predict_single (loadModels .absent .absent) row =
      successResult (dummyProbability row)
        (max (1 - dummyProbability row) (dummyProbability row)) "primary" := rfl
  refine ⟨hb, rfl, rfl, ?_, ?_⟩
  · rw [heq]
    unfold successResult
    dsimp only
    rw [decide_eq_true_iff]
    have := hb.1
    linarith
  · rw [heq]
    unfold successResult riskLevelOf
    dsimp only
    have h3 : ¬ dummyProbability row ≤ 0.3 := by have := hb.1; intro hc; linarith
    have h6 : ¬ dummyProbability row ≤ 0.6 := by have := hb.1; intro hc; linarith
    rw [if_neg h3, if_neg h6]

/-- Witness for C10 at the empty row (price defaults to 100, quantity
to 1). -/
theorem dummy_model_range_witness :
    (0 : ℚ) ≤ dummyPrice [] ∧ (1 : ℚ) ≤ dummyQuantity []
    ∧ ((0.65 : ℚ) ≤ dummyProbability [] ∧ dummyProbability [] ≤ 0.75)
    ∧ (predict_single (loadModels .absent .absent) []).pred.will_return = true
    ∧ (predict_single (loadModels .absent .absent) []).pred.risk_level = "HIGH" := by
  have hp : (0 : ℚ) ≤ dummyPrice [] := by norm_num [dummyPrice, getCol]
  have hq : (1 : ℚ) ≤ dummyQuantity [] := by norm_num [dummyQuantity, getCol]
  have h := dummy_model_range [] hp hq
  exact ⟨hp, hq, h.1, h.2.2.2.1, h.2.2.2.2⟩

/-- C9: feature engineering is deterministic and independent of the
injected clock whenever the temporal fields are already present in the
basic feature set — two applications of `transform` to the same row, at
any two times, produce identical results. -/
theorem engineering_deterministic (row : Row) (c1 c2 : Clock)
    (h1 : hasCol row "Order_Year" = true) (h2 : hasCol row "Order_Month" = true)
    (h3 : hasCol row "Order_Weekday" = true) :
    transform row c1 = transform row c2 := by
  unfold transform
  by_cases he : row.isEmpty
  · simp [he]
  · simp only [he, Bool.false_eq_true, if_false]
    cases hadv : create_advanced_features row with
    | error e => rfl
    | ok r1 =>
        have p1 : getCol r1 "Order_Year" = getCol row "Order_Year" :=
          create_advanced_getCol_temporal row r1 hadv _ (by simp)
        have p2 : getCol r1 "Order_Month" = getCol row "Order_Month" :=
          create_advanced_getCol_temporal row r1 hadv _ (by simp)
        have p3 : getCol r1 "Order_Weekday" = getCol row "Order_Weekday" :=
          create_advanced_getCol_temporal row r1 hadv _ (by simp)
        have hy1 : hasCol r1 "Order_Year" = true := by
          unfold hasCol; rw [p1]; exact h1
        have hy2 : hasCol r1 "Order_Month" = true := by
          unfold hasCol; rw [p2]; exact h2
        have hy3 : hasCol r1 "Order_Weekday" = true := by
          unfold hasCol; rw [p3]; exact h3
        simp only [hy1, if_true]
        have hi1 : hasCol (create_interaction_features r1) "Order_Year" = true := by
          unfold hasCol
          rw [create_interaction_getCol r1 _ (by decide) (by decide) (by decide)
            (by decide) (by decide) (by decide) (by decide) (by decide) (by decide)]
          exact hy1
        have hi2 : hasCol (create_interaction_features r1) "Order_Month" = true := by
          unfold hasCol
          rw [create_interaction_getCol r1 _ (by decide) (by decide) (by decide)
            (by decide) (by decide) (by decide) (by decide) (by decide) (by decide)]
          exact hy2
        have hi3 : hasCol (create_interaction_features r1) "Order_Weekday" = true := by
          unfold hasCol
          rw [create_interaction_getCol r1 _ (by decide) (by decide) (by decide)
            (by decide) (by decide) (by decide) (by decide) (by decide) (by decide)]
          exact hy3
        rw [encode_clock_indep _ c1 c2 hi1 hi2 hi3]

/-- Witness for C9: a full basic-feature row engineered under two
different clocks gives identical outputs. -/
theorem engineering_deterministic_witness :
    hasCol basicRow "Order_Year" = true
    ∧ hasCol basicRow "Order_Month" = true
    ∧ hasCol basicRow "Order_Weekday" = true
    ∧ transform basicRow witnessClock = transform basicRow witnessClock2 :=
  ⟨rfl, rfl, rfl,
   engineering_deterministic basicRow witnessClock witnessClock2 rfl rfl rfl⟩

/-- Counterexample for C8: an order with age 17 passes the batch-path
age policy (0..120, both in `validate_csv_data` and in the pydantic
`PredictionRequest`), yet the batch pipeline produces no prediction for
it: the per-row call to `process_single_order` still applies the 18..100
`OrderData` policy and the row is marked failed. -/
theorem age17_batch_counterexample :
    csvAgeOk order17.age = true
    ∧ exceptOk (validatePredictionRequest order17) = true
    ∧ (processBatchRow (loadModels .absent .absent) witnessClock order17).1 = false
    ∧ (processBatchRow (loadModels .absent .absent) witnessClock order17).2 = none :=
  ⟨rfl, rfl, rfl, rfl⟩

/-- C8 (amended): an order with age 17 is rejected by the
single-prediction policy (18 ≤ age ≤ 100); the batch-path policy
(0 ≤ age ≤ 120) accepts the row at file-validation time, but the batch
pipeline still routes each row through the 18..100 OrderData validation,
so the row fails and no prediction is produced. -/
theorem age17_policy (o : RawOrder) (st : AgentState) (clock : Clock)
    (h : o.age = 17) :
    exceptOk (validateOrder o) = false
    ∧ csvAgeOk o.age = true
    ∧ (processBatchRow st clock o).1 = false
    ∧ (processBatchRow st clock o).2 = none := by
  have hage : ¬ (18 ≤ o.age ∧ o.age ≤ 100) := by rw [h]; omega
  have hv : exceptOk (validateOrder o) = false := by
    unfold validateOrder
    split_ifs <;> simp_all [exceptOk]
  have hrow : processBatchRow st clock o = (false, none) := by
    unfold processBatchRow process_single_order
    cases hvv : validateOrder o with
    | error e => rfl
    | ok od => rw [hvv] at hv; simp [exceptOk] at hv
  exact ⟨hv, by rw [h]; rfl, by rw [hrow], by rw [hrow]⟩

/-- Witness for C8's amended statement at the concrete 17-year-old
order. -/
theorem age17_policy_witness :
    order17.age = 17
    ∧ exceptOk (validateOrder order17) = false
    ∧ csvAgeOk order17.age = true
    ∧ (processBatchRow (loadModels .absent .absent) witnessClock order17).1 = false := by
  have h := age17_policy order17 (loadModels .absent .absent) witnessClock rfl
  exact ⟨rfl, h.1, h.2.1, h.2.2.1⟩

end ReturnPrediction
